import Mathlib

/-!
Verification of the CMS-Scraper download engine (src/cmsscraper.py) against its
specification.  The Python source is shallowly embedded: pure helpers become
Lean functions, the filesystem becomes an explicit map from paths to file
sizes, HTTP traffic becomes explicit response values, and the asyncio
semaphore discipline of the download dispatcher becomes a small-step
transition system.
-/

namespace CMSScraper

/-- Embeds `WEB_SERVER` (cmsscraper.py line 21). -/
def WEB_SERVER : String := "https://cms.bits-hyderabad.ac.in"

/-- Embeds `VALID_FILENAME_CHARS = "-_.() %s%s" % (string.ascii_letters, string.digits)`
(cmsscraper.py line 23): dash, underscore, period, parentheses, space, ASCII
letters (lowercase then uppercase) and digits. -/
def VALID_FILENAME_CHARS : String :=
  "-_.() abcdefghijklmnopqrstuvwxyzABCDEFGHIJKLMNOPQRSTUVWXYZ0123456789"

/-- Embeds `SEMAPHORE_COUNT = 25` (cmsscraper.py line 34), the bound handed to
every `asyncio.Semaphore` in the file. -/
def SEMAPHORE_COUNT : Nat := 25

/-- Does `needle` occur at the start of `hay`?  Auxiliary for the embedding of
Python's substring operator `in`. -/
def strStartsWith : List Char → List Char → Bool
  | _, [] => true
  | [], _ :: _ => false
  | a :: as, b :: bs => a == b && strStartsWith as bs

/-- Embeds Python's `needle in hay` substring test on strings:
`strContainsSub hay needle` is true when `needle` occurs contiguously
anywhere in `hay` (the empty needle always occurs). -/
def strContainsSub : List Char → List Char → Bool
  | [], needle => strStartsWith [] needle
  | a :: rest, needle => strStartsWith (a :: rest) needle || strContainsSub rest needle

/-- Embeds `os.path.join(a, b)` for the POSIX paths the scraper builds:
an absolute `b` replaces `a`; otherwise the parts are glued with a single
separator. -/
def pathJoin (a b : String) : String :=
  if b.data.head? = some '/' then b
  else if a = "" then b
  else if a.data.getLast? = some '/' then a ++ b
  else a ++ "/" ++ b

/-- Embeds the `.encode('ASCII', 'ignore')` step of the sanitizer: a code
point survives exactly when it is below 128. -/
def isAsciiByte (c : Char) : Bool := decide (c.toNat < 128)

/-- Embeds the membership test `chr(c) in VALID_FILENAME_CHARS` of the
sanitizer's final comprehension. -/
def isValidFilenameChar (c : Char) : Bool := decide (c ∈ VALID_FILENAME_CHARS.data)

/-- Embeds `removeDisallowedFilenameChars` (cmsscraper.py lines 537-540).
`unicodedata.normalize('NFKD', ·)` is an external library call; it is passed
in as the function `nfkd` on the character sequence.  The result NFKD string
is ASCII-encoded with `ignore` (drop code points ≥ 128) and then filtered to
`VALID_FILENAME_CHARS`. -/
def removeDisallowedFilenameChars (nfkd : List Char → List Char) (filename : String) : String :=
  ⟨((nfkd filename.data).filter isAsciiByte).filter isValidFilenameChar⟩

end CMSScraper

namespace CMSScraper

/-- Every character of `VALID_FILENAME_CHARS` is ASCII. -/
theorem valid_filename_chars_ascii : ∀ c ∈ VALID_FILENAME_CHARS.data, c.toNat < 128 := by
  decide

/-- Every character of a sanitized name lies in `VALID_FILENAME_CHARS`. -/
theorem sanitized_chars_valid (nfkd : List Char → List Char) (s : String) :
    ∀ c ∈ (removeDisallowedFilenameChars nfkd s).data, c ∈ VALID_FILENAME_CHARS.data := by
  intro c hc
  exact of_decide_eq_true (List.mem_filter.mp hc).2

end CMSScraper

namespace CMSScraper

/-- Claim C5: for every NFKD normalizer and every input string, the
sanitizer's output consists only of characters from `VALID_FILENAME_CHARS`
(ASCII letters, digits, dash, underscore, period, space, parentheses), is a
subsequence of the NFKD-decomposed input (order preserved), and contains no
path-separator characters `/` or `\`. -/
theorem c5_sanitizer_charset (nfkd : List Char → List Char) (s : String) :
    (∀ c ∈ (removeDisallowedFilenameChars nfkd s).data, c ∈ VALID_FILENAME_CHARS.data) ∧
    List.Sublist (removeDisallowedFilenameChars nfkd s).data (nfkd s.data) ∧
    '/' ∉ (removeDisallowedFilenameChars nfkd s).data ∧
    '\\' ∉ (removeDisallowedFilenameChars nfkd s).data := by
  have hmem := sanitized_chars_valid nfkd s
  refine ⟨hmem, ?_, ?_, ?_⟩
  · exact (List.filter_sublist _).trans (List.filter_sublist _)
  · intro h
    exact absurd (hmem _ h) (by decide)
  · intro h
    exact absurd (hmem _ h) (by decide)

/-- Claim C5 witness: concrete evaluation of the sanitizer on a string with a
path separator, through the theorem. -/
theorem c5_sanitizer_charset_witness :
    '/' ∉ (removeDisallowedFilenameChars (fun l => l) "a/b.pdf").data :=
  (c5_sanitizer_charset (fun l => l) "a/b.pdf").2.2.1

/-- Claim C8: the sanitizer is idempotent.  The hypothesis records the Unicode
fact the source relies on: NFKD normalization leaves a string of allowed
(plain-ASCII) filename characters unchanged. -/
theorem c8_sanitize_idempotent (nfkd : List Char → List Char)
    (hfix : ∀ l : List Char, (∀ c ∈ l, c ∈ VALID_FILENAME_CHARS.data) → nfkd l = l)
    (s : String) :
    removeDisallowedFilenameChars nfkd (removeDisallowedFilenameChars nfkd s) =
      removeDisallowedFilenameChars nfkd s := by
  have hout := sanitized_chars_valid nfkd s
  have h1 : nfkd (removeDisallowedFilenameChars nfkd s).data =
      (removeDisallowedFilenameChars nfkd s).data :=
    hfix _ hout
  have h2 : ((removeDisallowedFilenameChars nfkd s).data).filter isAsciiByte =
      (removeDisallowedFilenameChars nfkd s).data := by
    apply List.filter_eq_self.mpr
    intro c hc
    exact decide_eq_true (valid_filename_chars_ascii c (hout c hc))
  have h3 : ((removeDisallowedFilenameChars nfkd s).data).filter isValidFilenameChar =
      (removeDisallowedFilenameChars nfkd s).data := by
    apply List.filter_eq_self.mpr
    intro c hc
    exact decide_eq_true (hout c hc)
  show (⟨((nfkd (removeDisallowedFilenameChars nfkd s).data).filter
      isAsciiByte).filter isValidFilenameChar⟩ : String) = _
  rw [h1, h2, h3]

/-- Claim C8 witness: idempotence instantiated at the identity normalizer
(which fixes allowed-character strings) and a concrete input. -/
theorem c8_sanitize_idempotent_witness :
    (∀ l : List Char, (∀ c ∈ l, c ∈ VALID_FILENAME_CHARS.data) → (fun x : List Char => x) l = l) ∧
    removeDisallowedFilenameChars (fun x => x)
        (removeDisallowedFilenameChars (fun x => x) "a/b..(c) *") =
      removeDisallowedFilenameChars (fun x => x) "a/b..(c) *" :=
  ⟨fun _ _ => rfl, c8_sanitize_idempotent (fun x => x) (fun _ _ => rfl) "a/b..(c) *"⟩

end CMSScraper

namespace CMSScraper

/-- An entry of `download_queue`: the 4-tuple
`(file_url, file_dir, file_name, file_ext)` that
`add_to_download_queue.process` puts on the queue (cmsscraper.py line 448). -/
structure QItem where
  url : String
  dir : String
  name : String
  ext : String
deriving DecidableEq

/-- The filesystem as seen by the scraper: maps each path to `some size` when
a file of that byte length exists there, `none` otherwise. -/
def FileSystem : Type := String → Option Nat

/-- Embeds `os.path.exists(path) and os.stat(path).st_size == file_size`
(cmsscraper.py line 441). -/
def fileExistsWithSize (fs : FileSystem) (path : String) (size : Int) : Bool :=
  match fs path with
  | some n => (n : Int) == size
  | none => false

/-- Embeds `add_to_download_queue.process` (cmsscraper.py lines 436-452) as a
pure transformation of the queue contents.  The task is dropped when the
declared size is known (not `-1`) and the destination file already exists
with exactly that byte length, or when the declared size is at least
`512 * 1024 * 1024`; otherwise the 4-tuple is appended to the queue.  The
declared size itself is not stored on the queue. -/
def add_to_download_queue (fs : FileSystem) (q : List QItem)
    (file_url file_dir file_name file_ext : String) (file_size : Int) : List QItem :=
  let path := pathJoin file_dir (file_name ++ file_ext)
  if file_size != -1 && fileExistsWithSize fs path file_size then q
  else if file_size ≥ 512 * 1024 * 1024 then q
  else q ++ [⟨file_url, file_dir, file_name, file_ext⟩]

/-- Concrete filesystem for the C6 witness: one file `d/f.pdf` of 5 bytes. -/
def fsC6 : FileSystem := fun p => if p == "d/f.pdf" then some 5 else none

end CMSScraper

namespace CMSScraper

/-- Claim C6: an enqueue call with a known declared size (not the `-1`
sentinel) whose destination file `destDir/fileName+fileExt` already exists
with exactly that byte length is rejected: the queue is unchanged. -/
theorem c6_enqueue_rejects_existing_file (fs : FileSystem) (q : List QItem)
    (url dir name ext : String) (size : Int) (n : Nat)
    (hsize : size ≠ -1) (hfs : fs (pathJoin dir (name ++ ext)) = some n)
    (hn : (n : Int) = size) :
    add_to_download_queue fs q url dir name ext size = q := by
  have hexists : fileExistsWithSize fs (pathJoin dir (name ++ ext)) size = true := by
    unfold fileExistsWithSize
    rw [hfs]
    simp [hn]
  unfold add_to_download_queue
  simp only [hexists, Bool.and_true, bne_iff_ne, ne_eq, hsize, not_false_eq_true, if_true]

/-- Claim C6 witness: the enqueue rejection evaluated on a concrete
filesystem holding `d/f.pdf` with 5 bytes and a task declaring 5 bytes. -/
theorem c6_enqueue_rejects_existing_file_witness :
    (5 : Int) ≠ -1 ∧
    fsC6 (pathJoin "d" ("f" ++ ".pdf")) = some 5 ∧
    ((5 : Nat) : Int) = 5 ∧
    add_to_download_queue fsC6 [] "http://u" "d" "f" ".pdf" 5 = [] :=
  ⟨by decide, rfl, rfl,
    c6_enqueue_rejects_existing_file fsC6 [] "http://u" "d" "f" ".pdf" 5 5
      (by decide) rfl rfl⟩

end CMSScraper

namespace CMSScraper

/-- Embeds Python's `str.lower()` for the ASCII names compared in the
source (`module["name"].lower()`, `module["modname"].lower()`). -/
def pyLower (s : String) : String := ⟨s.data.map Char.toLower⟩

/-- Embeds Python's `str.strip()`: drop leading and trailing whitespace. -/
def pyStrip (s : String) : String :=
  ⟨((s.data.dropWhile Char.isWhitespace).reverse.dropWhile Char.isWhitespace).reverse⟩

/-- Index of the last occurrence of `c` in `s`, `none` when absent
(auxiliary for `pyRfind`). -/
def pyRfindAux (c : Char) : List Char → Option Nat
  | [] => none
  | a :: rest =>
    match pyRfindAux c rest with
    | some i => some (i + 1)
    | none => if a == c then some 0 else none

/-- Embeds Python's `s.rfind(c)`: index of the last occurrence of `c`, or
`-1` when `c` does not occur. -/
def pyRfind (s : List Char) (c : Char) : Int :=
  match pyRfindAux c s with
  | some i => (i : Int)
  | none => -1

/-- Embeds Python's slice `s[i:]`, including the negative-index convention
(start at `max 0 (len + i)`). -/
def pySliceFrom (s : List Char) (i : Int) : List Char :=
  if 0 ≤ i then s.drop i.toNat
  else s.drop (s.length - min s.length (-i).toNat)

/-- Embeds `get_final_download_link` (cmsscraper.py lines 519-521): append the
token as a query parameter, using `&` when the URL already has a `?`. -/
def get_final_download_link (file_url token : String) : String :=
  if strContainsSub file_url.data ['?'] then file_url ++ "&token=" ++ token
  else file_url ++ "?token=" ++ token

/-- One entry of a module's `contents` array (JSON fields `fileurl`,
`filename`, `filesize`). -/
structure Content where
  fileurl : String
  filename : String
  filesize : Int
deriving DecidableEq

/-- A course-section module as `queue_module` reads it: JSON fields `name`
and `modname`, and the optional `contents` array (`none` models a missing
`"contents"` key). -/
structure PyModule where
  name : String
  modname : String
  contents : Option (List Content)
deriving DecidableEq

/-- An error raised while walking the hierarchy: a Python `KeyError` on the
named key. -/
inductive DiscoveryError where
  | keyError (key : String)
deriving DecidableEq

/-- Embeds the handout renaming of `queue_module` (cmsscraper.py line 288):
`"".join(("HANDOUT", content["filename"][content["filename"].rfind("."):]))`. -/
def handoutFileName (filename : String) : String :=
  ⟨"HANDOUT".data ++ pySliceFrom filename.data (pyRfind filename.data '.')⟩

/-- Embeds the file-name choice of `queue_module` (cmsscraper.py lines
286-290): modules named `handout` (case-insensitively) force the literal
`HANDOUT` plus the original extension; all other modules sanitize the
original file name. -/
def contentFileName (nfkd : List Char → List Char) (moduleName fileName : String) : String :=
  if pyLower moduleName = "handout" then handoutFileName fileName
  else removeDisallowedFilenameChars nfkd fileName

/-- Embeds `queue_module` (cmsscraper.py lines 274-317) for resource/folder
modules.  The module directory is
`course_section_dir/removeDisallowedFilenameChars(name)[:50].strip()`.  For a
resource or folder module, each entry of `contents` is passed to
`add_to_download_queue` with the tokenized URL, the module directory, the
file name chosen by `contentFileName`, an empty extension and the declared
size; a missing `"contents"` key raises `KeyError("contents")`
(`for content in module["contents"]`, line 282).  Forum and other module
kinds derive their tasks from further network fetches (an external
collaborator) and contribute no locally derived tasks here. -/
def queue_module (nfkd : List Char → List Char) (token : String) (fs : FileSystem)
    (q : List QItem) (courseSectionDir : String) (m : PyModule) :
    Except DiscoveryError (List QItem) :=
  let moduleDir :=
    pathJoin courseSectionDir (pyStrip ⟨(removeDisallowedFilenameChars nfkd m.name).data.take 50⟩)
  if pyLower m.modname = "resource" ∨ pyLower m.modname = "folder" then
    match m.contents with
    | none => .error (.keyError "contents")
    | some cs =>
        .ok (cs.foldl (fun acc content =>
          add_to_download_queue fs acc (get_final_download_link content.fileurl token)
            moduleDir (contentFileName nfkd m.name content.filename) "" content.filesize) q)
  else
    .ok q

end CMSScraper

namespace CMSScraper

/-- Claim C7: when a module's name case-insensitively equals `handout`, the
file name passed to the enqueue call for each of its contents is the literal
`HANDOUT` followed by the content's original extension, overriding normal
sanitization; concretely, a resource module named `Handout` holding
`lecture3.pdf` enqueues exactly the task named `HANDOUT.pdf`. -/
theorem c7_handout_renaming (nfkd : List Char → List Char) (moduleName : String)
    (h : pyLower moduleName = "handout") (fileName : String) :
    contentFileName nfkd moduleName fileName = handoutFileName fileName ∧
    handoutFileName "lecture3.pdf" = "HANDOUT.pdf" ∧
    queue_module (fun l => l) "tok" (fun _ => none) [] "sec"
        ⟨"Handout", "resource", some [⟨"http://u", "lecture3.pdf", 10⟩]⟩ =
      .ok [⟨"http://u?token=tok", "sec/Handout", "HANDOUT.pdf", ""⟩] := by
  refine ⟨?_, by decide, rfl⟩
  unfold contentFileName
  rw [if_pos h]

/-- Claim C7 witness: the renaming evaluated at the module name `HandOut`
and the content file `lecture3.pdf`. -/
theorem c7_handout_renaming_witness :
    pyLower "HandOut" = "handout" ∧
    contentFileName (fun l => l) "HandOut" "lecture3.pdf" = handoutFileName "lecture3.pdf" ∧
    handoutFileName "lecture3.pdf" = "HANDOUT.pdf" :=
  ⟨by decide, (c7_handout_renaming (fun l => l) "HandOut" (by decide) "lecture3.pdf").1,
    (c7_handout_renaming (fun l => l) "HandOut" (by decide) "lecture3.pdf").2.1⟩

end CMSScraper

namespace CMSScraper

/-- Claim C4 counterexample: a resource module with no `contents` field is
not skipped — `queue_module` raises `KeyError("contents")`
(`for content in module["contents"]`, cmsscraper.py line 282), refuting the
claim that processing completes without error. -/
theorem c4_missing_contents_counterexample :
    queue_module (fun l => l) "tok" (fun _ => none) [] "base"
        ⟨"Notes", "resource", none⟩ =
      .error (.keyError "contents") := rfl

/-- Claim C4 (amended): for every module of kind resource or folder that
lacks a `contents` field, processing the module raises a `KeyError` on the
`contents` lookup instead of skipping it. -/
theorem c4_missing_contents_raises (nfkd : List Char → List Char) (token : String)
    (fs : FileSystem) (q : List QItem) (dir : String) (m : PyModule)
    (hkind : pyLower m.modname = "resource" ∨ pyLower m.modname = "folder")
    (hc : m.contents = none) :
    queue_module nfkd token fs q dir m = .error (.keyError "contents") := by
  unfold queue_module
  rw [if_pos hkind, hc]

/-- Claim C4 witness: the amended claim evaluated at a concrete folder
module without a `contents` field. -/
theorem c4_missing_contents_raises_witness :
    (pyLower "Folder" = "resource" ∨ pyLower "Folder" = "folder") ∧
    (PyModule.mk "Slides" "Folder" none).contents = none ∧
    queue_module (fun l => l) "t" (fun _ => none) [] "d" ⟨"Slides", "Folder", none⟩ =
      .error (.keyError "contents") :=
  ⟨Or.inr (by decide), rfl,
    c4_missing_contents_raises (fun l => l) "t" (fun _ => none) [] "d"
      ⟨"Slides", "Folder", none⟩ (Or.inr (by decide)) rfl⟩

end CMSScraper

namespace CMSScraper

/-- An HTTP response as `download_file` reads it: the `ok` flag, the
file name carried by the `Content-Disposition` header (`none` when the
header is absent), the `content-length` header (`none` when absent, which
makes `response.headers['content-length']` raise), and the body bytes. -/
structure HttpResponse where
  respOk : Bool
  dispositionFilename : Option String
  contentLength : Option Int
  body : List Nat
deriving DecidableEq

/-- The outcome of one `download_file` call. -/
inductive DLResult where
  /-- Returned `False` at the empty-name/empty-disposition check; nothing
  written. -/
  | noName : DLResult
  /-- A `BaseException` was caught (failed GET, missing `content-length`,
  filesystem error); returned `False`, nothing written by this call. -/
  | raised : DLResult
  /-- The body was streamed to disk at `path`; returned `True`. -/
  | written (path : String) (bytes : List Nat) : DLResult
deriving DecidableEq

/-- Embeds `download_file` (cmsscraper.py lines 463-503).  The GET result is
passed in as `resp` (`Except.error` models a raised network exception, caught
by the blanket `except BaseException`).  A non-`ok` status only logs and
falls through.  When `file_name` is empty the name comes from the
`Content-Disposition` header, and a missing header returns `False`.  The
`content-length` header is read (a missing header raises, caught by the
blanket handler) but used only for logging; the body is then written
unconditionally — the function takes the filesystem `fs` as input and never
consults it, despite the source's `# Ignore if file already exists` comment
(line 492): no skip-if-exists re-validation exists in the code. -/
def download_file (fs : FileSystem) (resp : Except Unit HttpResponse)
    (file_dir file_name file_ext : String) : DLResult :=
  match resp with
  | .error _ => .raised
  | .ok r =>
    match (if file_name == "" then r.dispositionFilename else some file_name) with
    | none => .noName
    | some name =>
      let path := pathJoin file_dir (name ++ file_ext)
      match r.contentLength with
      | none => .raised
      | some _ => .written path r.body

/-- Maps a `DLResult` to the `bool` that `download_file` returns. -/
def dlReturn : DLResult → Bool
  | .written _ _ => true
  | _ => false

/-- Embeds `process_download_queue` (cmsscraper.py lines 455-460): every
queued 4-tuple is handed to `download_file` exactly once (one
`download_file(sem, *param)` coroutine per queue entry, gathered once); the
source contains no resubmission path, so a task's transfer is attempted a
single time.  `transport` supplies the GET result for each task. -/
def process_download_queue (fs : FileSystem)
    (transport : QItem → Except Unit HttpResponse) (q : List QItem) : List Bool :=
  q.map (fun item => dlReturn (download_file fs (transport item) item.dir item.name item.ext))

/-- Filesystem of the second-run scenario for C1/C2: the destination file
`sectiondir/notes.pdf` is already fully present with 3 bytes. -/
def fsSecondRun : FileSystem := fun p => if p == "sectiondir/notes.pdf" then some 3 else none

/-- Response of the second-run scenario for C1/C2: content-length 3 equals
the 3 bytes already on disk. -/
def respSecondRun : HttpResponse :=
  { respOk := true, dispositionFilename := some "notes.pdf",
    contentLength := some 3, body := [9, 9, 9] }

end CMSScraper

namespace CMSScraper

/-- Claim C1 (refuted, code bug): a second-run task derived from a
section-summary anchor is enqueued with the unknown-size sentinel `-1`, so
the enqueue-time existence check is bypassed even though the destination
file `sectiondir/notes.pdf` is already complete, and `download_file` then
writes the body again — the task is neither rejected at enqueue nor skipped
before bytes are written, so the second run is not write-free. -/
theorem c1_second_run_rewrites :
    add_to_download_queue fsSecondRun [] "http://u?token=t" "sectiondir" "" "" (-1) =
      [⟨"http://u?token=t", "sectiondir", "", ""⟩] ∧
    download_file fsSecondRun (.ok respSecondRun) "sectiondir" "" "" =
      .written "sectiondir/notes.pdf" [9, 9, 9] := ⟨rfl, rfl⟩

/-- Claim C2 (refuted, code bug): even when the destination file exists with
byte length exactly equal to the response's content-length, `download_file`
still writes the body: the claimed skip-if-exists re-validation does not
happen (the `# Ignore if file already exists` comment at line 492 has no
implementing check). -/
theorem c2_no_content_length_revalidation :
    fsSecondRun "sectiondir/notes.pdf" = some 3 ∧
    respSecondRun.contentLength = some 3 ∧
    download_file fsSecondRun (.ok respSecondRun) "sectiondir" "" "" =
      .written "sectiondir/notes.pdf" [9, 9, 9] := ⟨rfl, rfl, rfl⟩

/-- Claim C3 (refuted, code bug): a task whose GET raises a transient error
is reported failed after its single attempt; `download_file` catches the
exception and returns `False` with no resubmission, although its docstring
says a failed download "is requeed" — the dispatcher maps each queued task
to exactly one `download_file` call. -/
theorem c3_no_retry_on_transient_failure :
    download_file (fun _ => none) (.error ()) "d" "f" "" = .raised ∧
    process_download_queue (fun _ => none) (fun _ => .error ()) [⟨"http://u", "d", "f", ""⟩] =
      [false] := ⟨rfl, rfl⟩

end CMSScraper

namespace CMSScraper

/-- Embeds the anchor-processing loop of `queue_course_section`
(cmsscraper.py lines 253-260) for a single anchor: `anchor.get('href')` is
`none` when the anchor has no href; the loop `continue`s unless the href is
truthy and contains `WEB_SERVER` as a substring, and otherwise enqueues a
nameless task (`file_name = ""`, `file_ext = ""`, `file_size = -1`) for the
tokenized link. -/
def queue_section_summary_anchor (fs : FileSystem) (token courseSectionDir : String)
    (q : List QItem) (link : Option String) : List QItem :=
  match link with
  | none => q
  | some l =>
    if !(l == "") && strContainsSub l.data WEB_SERVER.data then
      add_to_download_queue fs q (get_final_download_link l token) courseSectionDir "" "" (-1)
    else q

/-- An off-origin URL that merely embeds the `WEB_SERVER` string in a query
parameter. -/
def offOriginUrl : String := "https://evil.example.com/?u=https://cms.bits-hyderabad.ac.in"

/-- `add_to_download_queue` with the `-1` sentinel always appends: the
existence check requires a known size and `-1` is below the size ceiling. -/
theorem add_to_download_queue_neg_one (fs : FileSystem) (q : List QItem)
    (url dir : String) :
    add_to_download_queue fs q url dir "" "" (-1) = q ++ [⟨url, dir, "", ""⟩] := by
  unfold add_to_download_queue
  norm_num

end CMSScraper

namespace CMSScraper

/-- Claim C10: a summary anchor's href yields a nameless enqueued task
exactly when the literal `WEB_SERVER` string occurs as a substring of the
href — a containment test, not a same-origin test, as the off-origin URL
conjunct shows; an absent href enqueues nothing. -/
theorem c10_summary_link_substring_filter (fs : FileSystem) (token dir : String)
    (q : List QItem) (l : String) :
    (queue_section_summary_anchor fs token dir q (some l) =
        q ++ [⟨get_final_download_link l token, dir, "", ""⟩] ↔
      strContainsSub l.data WEB_SERVER.data = true) ∧
    strContainsSub offOriginUrl.data WEB_SERVER.data = true ∧
    queue_section_summary_anchor fs token dir q none = q := by
  refine ⟨?_, by decide, rfl⟩
  constructor
  · intro heq
    by_contra hcon
    rw [Bool.not_eq_true] at hcon
    have hres : queue_section_summary_anchor fs token dir q (some l) = q := by
      simp only [queue_section_summary_anchor]
      rw [hcon]
      simp
    rw [hres] at heq
    have hlen := congrArg List.length heq
    simp at hlen
  · intro hcon
    have hne : (l == "") = false := by
      rcases h : (l == "") with _ | _
      · rfl
      · exfalso
        have hl : l = "" := by
          exact eq_of_beq h
        rw [hl] at hcon
        exact absurd hcon (by decide)
    simp only [queue_section_summary_anchor]
    rw [hne, hcon]
    exact add_to_download_queue_neg_one fs q (get_final_download_link l token) dir

/-- Claim C10 witness: the filter evaluated at the off-origin URL, through
the theorem. -/
theorem c10_summary_link_substring_filter_witness :
    queue_section_summary_anchor (fun _ => none) "t" "d" [] (some offOriginUrl) =
      [⟨get_final_download_link offOriginUrl "t", "d", "", ""⟩] := by
  have h := (c10_summary_link_substring_filter (fun _ => none) "t" "d" [] offOriginUrl).1.mpr
    (by decide)
  simpa using h

end CMSScraper

namespace CMSScraper

/-- State of the download dispatcher's worker pool: how many queued tasks are
still waiting to enter `async with sem`, how many hold a permit with an open
transfer, how many have released it, and how many semaphore permits are
free. -/
structure PoolState where
  waiting : Nat
  transferring : Nat
  finished : Nat
  avail : Nat
deriving DecidableEq

/-- One scheduler step of the dispatcher, embedding the semaphore discipline
of `download_file` (cmsscraper.py line 479, `async with sem, session.get(...)`):
a waiting task may open its transfer only by taking a free permit, and a
transferring task releases its permit when the `async with` block exits. -/
inductive PoolStep : PoolState → PoolState → Prop
  | acquire (s : PoolState) (hw : 0 < s.waiting) (ha : 0 < s.avail) :
      PoolStep s ⟨s.waiting - 1, s.transferring + 1, s.finished, s.avail - 1⟩
  | release (s : PoolState) (ht : 0 < s.transferring) :
      PoolStep s ⟨s.waiting, s.transferring - 1, s.finished + 1, s.avail + 1⟩

/-- The state at the start of `process_download_queue`: `n` queued tasks, no
transfer open, all `c` permits of `asyncio.Semaphore(SEMAPHORE_COUNT)`
free. -/
def initPool (n c : Nat) : PoolState := ⟨n, 0, 0, c⟩

/-- The states a run of the dispatcher can pass through. -/
inductive PoolReachable (init : PoolState) : PoolState → Prop
  | refl : PoolReachable init init
  | step {s t : PoolState} : PoolReachable init s → PoolStep s t → PoolReachable init t

/-- Permit accounting: open transfers plus free permits always equal the
semaphore's initial count. -/
theorem pool_permit_invariant {n c : Nat} {s : PoolState}
    (h : PoolReachable (initPool n c) s) : s.transferring + s.avail = c := by
  induction h with
  | refl => simp [initPool]
  | step hr hs ih =>
    cases hs with
    | acquire hw ha => simp only; omega
    | release ht => simp only; omega

end CMSScraper

namespace CMSScraper

/-- Claim C9: in a batch run over `n > SEMAPHORE_COUNT` pending tasks, every
state the dispatcher can reach has at most `SEMAPHORE_COUNT` transfers
simultaneously open, because each open transfer holds one of the
`SEMAPHORE_COUNT` semaphore permits. -/
theorem c9_bounded_concurrency (n : Nat) (hn : SEMAPHORE_COUNT < n) (s : PoolState)
    (h : PoolReachable (initPool n SEMAPHORE_COUNT) s) :
    s.transferring ≤ SEMAPHORE_COUNT := by
  have hinv := pool_permit_invariant h
  omega

/-- Claim C9 witness: the bound evaluated after one acquire step of a run
over 26 tasks. -/
theorem c9_bounded_concurrency_witness :
    SEMAPHORE_COUNT < 26 ∧
    PoolReachable (initPool 26 SEMAPHORE_COUNT) ⟨25, 1, 0, 24⟩ ∧
    (PoolState.mk 25 1 0 24).transferring ≤ SEMAPHORE_COUNT :=
  ⟨by decide,
    PoolReachable.step PoolReachable.refl
      (PoolStep.acquire (initPool 26 SEMAPHORE_COUNT) (by decide) (by decide)),
    c9_bounded_concurrency 26 (by decide) ⟨25, 1, 0, 24⟩
      (PoolReachable.step PoolReachable.refl
        (PoolStep.acquire (initPool 26 SEMAPHORE_COUNT) (by decide) (by decide)))⟩

end CMSScraper
